import Mathlib

/-!  Verification development for the SEM simulator repository.

The beam model (`beam_calculation.py`, class `Beam`) and the scanning
frame synthesizer (`microscope.py`, class `Microscope`) are embedded
shallowly: Python floats become real numbers, numpy arrays become
functions out of `ℕ`, and the stateful `scanning` callback becomes an
explicit state-transformer on a `ScanState` record.  -/

set_option maxHeartbeats 1000000

noncomputable section

namespace SEM

/-- Parameter record of `Beam.__init__` in `beam_calculation.py`.
`z_position`, `astigm_x/y`, `misalign_x/y` are drawn randomly at
construction; here they are plain fields so every draw is covered. -/
structure Beam where
  z_position : ℝ
  pixels_per_mm : ℝ
  astigm_x : ℝ
  astigm_y : ℝ
  misalign_x : ℝ
  misalign_y : ℝ
  focus : ℝ
  stigm_x : ℝ
  stigm_y : ℝ
  align_x : ℝ
  align_y : ℝ
  beam_current : ℝ
  convergence : ℝ
  size : ℕ

/-- `Beam.__defocus`: `self.focus - self.z_position`. -/
def defocus (b : Beam) : ℝ := b.focus - b.z_position

/-- Truncation toward zero, the semantics of Python `int()` on a float. -/
def truncToInt (x : ℝ) : ℤ := if 0 ≤ x then ⌊x⌋ else ⌈x⌉

/-- `min(abs(c), cap) * np.sign(c)`, the clamp pattern used by
`Beam.center_x` and `Beam.center_y`. -/
def clampSign (c cap : ℤ) : ℤ := min |c| cap * Int.sign c

/-- `Beam.center_x`:
`c_x = int((align_x - misalign_x) * defocus / focus * pixels_per_mm)`,
returned as `min(abs(c_x), 96) * np.sign(c_x)`. -/
def center_x (b : Beam) : ℤ :=
  clampSign (truncToInt ((b.align_x - b.misalign_x) * defocus b / b.focus * b.pixels_per_mm)) 96

/-- `Beam.center_y`: as `center_x` with the y parameters and cap 49. -/
def center_y (b : Beam) : ℤ :=
  clampSign (truncToInt ((b.align_y - b.misalign_y) * defocus b / b.focus * b.pixels_per_mm)) 49

/-- `Beam.__sigma2_x_mm`:
`((defocus + abs(align_x - misalign_x)*10**-2 + abs(stigm_x + astigm_x))
  * convergence)**2 + 10**-16*(1 + 100*beam_current)**3/4`. -/
def sigma2_x_mm (b : Beam) : ℝ :=
  ((defocus b + |b.align_x - b.misalign_x| * (10 : ℝ) ^ (-2 : ℤ)
      + |b.stigm_x + b.astigm_x|) * b.convergence) ^ 2
    + (10 : ℝ) ^ (-16 : ℤ) * (1 + 100 * b.beam_current) ^ 3 / 4

/-- `Beam.__sigma2_y_mm`: the y-axis analogue of `sigma2_x_mm`. -/
def sigma2_y_mm (b : Beam) : ℝ :=
  ((defocus b + |b.align_y - b.misalign_y| * (10 : ℝ) ^ (-2 : ℤ)
      + |b.stigm_y + b.astigm_y|) * b.convergence) ^ 2
    + (10 : ℝ) ^ (-16 : ℤ) * (1 + 100 * b.beam_current) ^ 3 / 4

/-- `Beam.__sigma2_x_px`: `sigma2_x_mm * pixels_per_mm**2`. -/
def sigma2_x_px (b : Beam) : ℝ := sigma2_x_mm b * b.pixels_per_mm ^ 2

/-- `Beam.__sigma2_y_px`: `sigma2_y_mm * pixels_per_mm**2`. -/
def sigma2_y_px (b : Beam) : ℝ := sigma2_y_mm b * b.pixels_per_mm ^ 2

/-- `Beam.__astig_angle`:
`np.arctan((stigm_x + astigm_x)/(stigm_y + astigm_y))/2`, idealized over
the reals with total real-field division.  This idealization is faithful
only when the denominator is nonzero: the source operands are builtin
Python scalars, so a zero denominator raises `ZeroDivisionError` instead
of producing a value — that fallible behavior is modelled separately by
`astigAnglePy` below. -/
def astig_angle (b : Beam) : ℝ :=
  Real.arctan ((b.stigm_x + b.astigm_x) / (b.stigm_y + b.astigm_y)) / 2

/-- The inner `gauss(i, j)` of `Beam.beam_intensity`: the rotated
2D-Gaussian evaluated at row `i`, column `j` of the kernel grid. -/
def gauss (b : Beam) (i j : ℕ) : ℝ :=
  Real.exp (-((j : ℝ) - (b.size : ℝ) / 2) ^ 2 *
      (Real.cos (astig_angle b) ^ 2 / sigma2_x_px b +
        Real.sin (astig_angle b) ^ 2 / sigma2_y_px b)
    - ((i : ℝ) - (b.size : ℝ) / 2) ^ 2 *
      (Real.sin (astig_angle b) ^ 2 / sigma2_x_px b +
        Real.cos (astig_angle b) ^ 2 / sigma2_y_px b)
    + ((i : ℝ) - (b.size : ℝ) / 2) * ((j : ℝ) - (b.size : ℝ) / 2) *
      Real.sin (2 * astig_angle b) *
      (1 / sigma2_y_px b - 1 / sigma2_x_px b))

/-- `raw_gauss.sum()`: sum of the raw Gaussian over the whole
`size × size` grid built by `np.fromfunction`. -/
def rawSum (b : Beam) : ℝ :=
  ∑ i ∈ Finset.range b.size, ∑ j ∈ Finset.range b.size, gauss b i j

/-- `Beam.beam_intensity` entry at `(i, j)`:
`raw_gauss/raw_gauss.sum()`, the normalized kernel.  The grid is square,
`size × size`; entries with `i, j < size` are the matrix entries. -/
def beam_intensity (b : Beam) (i j : ℕ) : ℝ := gauss b i j / rawSum b

/-- Every raw Gaussian entry is strictly positive. -/
lemma gauss_pos (b : Beam) (i j : ℕ) : 0 < gauss b i j := Real.exp_pos _

/-- The normalization denominator is strictly positive on a nonempty grid. -/
lemma rawSum_pos (b : Beam) (h : 0 < b.size) : 0 < rawSum b := by
  have hne : (Finset.range b.size).Nonempty := ⟨0, Finset.mem_range.2 h⟩
  refine Finset.sum_pos (fun i _ => ?_) hne
  exact Finset.sum_pos (fun j _ => gauss_pos b i j) hne

/-- Python builtin-scalar division, the operation actually performed in
`Beam.__astig_angle`: `stigm_x/y` are the int `0` or `slider.value()/1000`
(a builtin float) and `astigm_x/y` come from `np.random.random() - 0.5`,
which is a builtin float, so `x / y` is Python scalar division — it
raises `ZeroDivisionError` (here `none`) whenever the denominator is
exactly zero, and is real division otherwise. -/
def pyDiv (x y : ℝ) : Option ℝ := if y = 0 then none else some (x / y)

/-- `Beam.__astig_angle` under Python scalar semantics, as a function of
the four parameters it reads:
`np.arctan((stigm_x + astigm_x)/(stigm_y + astigm_y))/2`, where the
inner division raises (`none`) on a zero denominator before `np.arctan`
is ever called. -/
def astigAngleScalar (sx ax sy ay : ℝ) : Option ℝ :=
  (pyDiv (sx + ax) (sy + ay)).map fun q => Real.arctan q / 2

/-- `Beam.__astig_angle` under Python scalar semantics. -/
def astigAnglePy (b : Beam) : Option ℝ :=
  astigAngleScalar b.stigm_x b.astigm_x b.stigm_y b.astigm_y

/-- `Beam.beam_intensity` under Python scalar semantics: evaluation of
the `gauss` grid raises `ZeroDivisionError` (yields `none`) exactly when
the angle denominator `stigm_y + astigm_y` is zero, before any grid
entry is produced; otherwise every remaining operation is total and the
entry is the real idealization `beam_intensity`. -/
def beam_intensityPy (b : Beam) (i j : ℕ) : Option ℝ :=
  if b.stigm_y + b.astigm_y = 0 then none else some (beam_intensity b i j)

/-- When the denominator is nonzero, the fallible angle agrees with the
total real idealization `astig_angle`. -/
lemma astigAnglePy_eq_some (b : Beam) (h : b.stigm_y + b.astigm_y ≠ 0) :
    astigAnglePy b = some (astig_angle b) := by
  unfold astigAnglePy astigAngleScalar pyDiv astig_angle
  rw [if_neg h]
  rfl

/-- When the denominator is nonzero, the fallible kernel agrees with the
total real idealization `beam_intensity`. -/
lemma beam_intensityPy_eq_some (b : Beam) (h : b.stigm_y + b.astigm_y ≠ 0) (i j : ℕ) :
    beam_intensityPy b i j = some (beam_intensity b i j) := by
  unfold beam_intensityPy
  rw [if_neg h]

/-- Scan state of `Microscope`: the displayed `frame` (a function of row
index `i < resolution[0]` and column index `j < resolution[1]`), the
current scan column `line`, and the `scan_active` flag. -/
structure ScanState where
  frame : ℕ → ℕ → ℝ
  line : ℕ
  scan_active : Bool

/-- The external inputs read by one `Microscope.scanning` tick:
resolution, speed, beam/high-voltage state, sliders, and `convT`, which
models the transposed convolution result
`convolution(cropped_image, beam.beam_intensity).T` (the crop, scale and
beam-center machinery is outside the claims and is abstracted as this
array-valued input). -/
structure Env where
  res0 : ℕ
  res1 : ℕ
  speed : ℕ
  beam_on : Bool
  h_v : ℝ
  hv_target : ℝ
  beam_current : ℝ
  contrast : ℝ
  brightness : ℝ
  convT : ℕ → ℕ → ℝ

/-- `step = (11 - self.speed)` from `Microscope.scanning`. -/
def step (speed : ℕ) : ℕ := 11 - speed

/-- The value `Microscope.scanning` stores into `frame[i, j]` for a column
`j` of the written slice starting at column `line`:
`beam_on * h_v/hv_target * (convT[i + res0/8, j + res0/8]*beam_current
 + 10*beam_current**0.5/speed**0.5 * rand[i, j - line])
 * (contrast/30)**2 + brightness - 250`.
The slice column offset `line + res0/8 + k` with `j = line + k` is
exactly `j + res0/8`; `noise i (j - line)` is the `[0,1)` draw
`np.random.rand(res0, width)[i, j - line]`. -/
def newVal (env : Env) (noise : ℕ → ℕ → ℝ) (line i j : ℕ) : ℝ :=
  (if env.beam_on then (1 : ℝ) else 0) * env.h_v / env.hv_target *
      (env.convT (i + env.res0 / 8) (j + env.res0 / 8) * env.beam_current
        + 10 * Real.sqrt env.beam_current / Real.sqrt (env.speed : ℝ)
          * noise i (j - line)) *
      (env.contrast / 30) ^ 2 + env.brightness - 250

/-- One tick of `Microscope.scanning`.  The three branches of the source:
if `line < resolution[1] - 1 - step` a full `step`-wide slice
`frame[:, line:line+step]` is replaced and `line += step`; elif
`line < resolution[1] - 1` the clipped slice `frame[:, line:resolution[1]]`
is replaced and `line += step`; else `line = 0` and nothing is written.
Comparisons are taken over `ℤ` to match Python integer arithmetic. -/
def scanning (env : Env) (noise : ℕ → ℕ → ℝ) (s : ScanState) : ScanState :=
  if (s.line : ℤ) < (env.res1 : ℤ) - 1 - (step env.speed : ℤ) then
    { s with
      frame := fun i j =>
        if s.line ≤ j ∧ j < s.line + step env.speed ∧ i < env.res0 then
          newVal env noise s.line i j
        else s.frame i j,
      line := s.line + step env.speed }
  else if (s.line : ℤ) < (env.res1 : ℤ) - 1 then
    { s with
      frame := fun i j =>
        if s.line ≤ j ∧ j < env.res1 ∧ i < env.res0 then
          newVal env noise s.line i j
        else s.frame i j,
      line := s.line + step env.speed }
  else
    { s with line := 0 }

/-- `Microscope.start_stop`: toggles `scan_active` (the timer start/stop
and button text are external); `line` and `frame` are not touched. -/
def start_stop (s : ScanState) : ScanState :=
  if s.scan_active then { s with scan_active := false }
  else { s with scan_active := true }

/-- The `line` transition of one `scanning` tick, as a pure function. -/
def nextLine (res1 st l : ℕ) : ℕ :=
  if (l : ℤ) < (res1 : ℤ) - 1 - (st : ℤ) then l + st
  else if (l : ℤ) < (res1 : ℤ) - 1 then l + st
  else 0

/-- One past the last column written by a `scanning` tick started at
column `l`: `l + st` in the full-slice branch, `res1` in the clipped
final-slice branch, and `l` (empty range) in the reset branch. -/
def sliceEnd (res1 st l : ℕ) : ℕ :=
  if (l : ℤ) < (res1 : ℤ) - 1 - (st : ℤ) then l + st
  else if (l : ℤ) < (res1 : ℤ) - 1 then res1
  else l

/-- `n` consecutive `scanning` ticks, tick `k` using the fresh noise
array `ns k` (each invocation draws a new `np.random.rand` array). -/
def ticks (env : Env) (ns : ℕ → ℕ → ℕ → ℝ) : ℕ → ScanState → ScanState
  | 0, s => s
  | n + 1, s => scanning env (ns n) (ticks env ns n s)

/-- A tick moves `line` by `nextLine`. -/
lemma scanning_line (env : Env) (noise : ℕ → ℕ → ℝ) (s : ScanState) :
    (scanning env noise s).line = nextLine env.res1 (step env.speed) s.line := by
  unfold scanning nextLine
  split_ifs <;> rfl

/-- Iterated ticks move `line` by iterated `nextLine`. -/
lemma ticks_line (env : Env) (ns : ℕ → ℕ → ℕ → ℝ) (n : ℕ) (s : ScanState) :
    (ticks env ns n s).line = (nextLine env.res1 (step env.speed))^[n] s.line := by
  induction n with
  | zero => rfl
  | succ n ih =>
      rw [ticks, scanning_line, ih, Function.iterate_succ_apply']

/-- A concrete valid parameter state: the source defaults with
`z_position = 10`, zero intrinsic astigmatism/misalignment and the
default `focus = 0.1`, `beam_current = 1`, `convergence = 0.01`,
`size = 64`, `pixels_per_mm = 448`. -/
def bW : Beam where
  z_position := 10
  pixels_per_mm := 448
  astigm_x := 0
  astigm_y := 0
  misalign_x := 0
  misalign_y := 0
  focus := 1 / 10
  stigm_x := 0
  stigm_y := 0
  align_x := 0
  align_y := 0
  beam_current := 1
  convergence := 1 / 100
  size := 64

/-- The current-dependent noise floor keeps the x variance positive for
any non-negative beam current. -/
lemma sigma2_x_mm_pos (b : Beam) (hbc : 0 ≤ b.beam_current) : 0 < sigma2_x_mm b := by
  have hfloor : (0 : ℝ) < (10 : ℝ) ^ (-16 : ℤ) * (1 + 100 * b.beam_current) ^ 3 / 4 := by
    have h1 : (0 : ℝ) < 1 + 100 * b.beam_current := by nlinarith
    positivity
  unfold sigma2_x_mm
  nlinarith [sq_nonneg ((defocus b + |b.align_x - b.misalign_x| * (10 : ℝ) ^ (-2 : ℤ)
    + |b.stigm_x + b.astigm_x|) * b.convergence)]

/-- The current-dependent noise floor keeps the y variance positive for
any non-negative beam current. -/
lemma sigma2_y_mm_pos (b : Beam) (hbc : 0 ≤ b.beam_current) : 0 < sigma2_y_mm b := by
  have hfloor : (0 : ℝ) < (10 : ℝ) ^ (-16 : ℤ) * (1 + 100 * b.beam_current) ^ 3 / 4 := by
    have h1 : (0 : ℝ) < 1 + 100 * b.beam_current := by nlinarith
    positivity
  unfold sigma2_y_mm
  nlinarith [sq_nonneg ((defocus b + |b.align_y - b.misalign_y| * (10 : ℝ) ^ (-2 : ℤ)
    + |b.stigm_y + b.astigm_y|) * b.convergence)]

/-- Claim C1: for valid beam parameters and any kernel size from 8 to
256, the `beam_intensity` kernel is a square `size × size` grid whose
entries are all non-negative and whose entries sum to exactly 1 (the
real-number idealization of "1.0 within floating-point tolerance"). -/
theorem C1_kernel_normalized (b : Beam) (h8 : 8 ≤ b.size) (h256 : b.size ≤ 256) :
    (∀ i < b.size, ∀ j < b.size, 0 ≤ beam_intensity b i j) ∧
      ∑ i ∈ Finset.range b.size, ∑ j ∈ Finset.range b.size, beam_intensity b i j = 1 := by
  have hS : 0 < rawSum b := rawSum_pos b (by omega)
  constructor
  · intro i _ j _
    exact div_nonneg (gauss_pos b i j).le hS.le
  · simp only [beam_intensity, ← Finset.sum_div]
    have h : (∑ i ∈ Finset.range b.size, ∑ j ∈ Finset.range b.size, gauss b i j) = rawSum b := rfl
    rw [h]
    exact div_self hS.ne'

/-- Witness for C1 at the concrete beam `bW` (size 64). -/
theorem C1_kernel_normalized_witness :
    ∑ i ∈ Finset.range bW.size, ∑ j ∈ Finset.range bW.size, beam_intensity bW i j = 1 :=
  (C1_kernel_normalized bW (by decide) (by decide)).2

/-- Claim C10: for `beam_current ≥ 0` the per-axis variances are
strictly positive (the additive noise floor is at least
`10^-16/4 > 0`), hence with `pixels_per_mm ≠ 0` the pixel-space
variances dividing the Gaussian exponent are nonzero, and the
kernel-normalization denominator `rawSum` is nonzero. -/
theorem C10_sigma2_pos (b : Beam) (hbc : 0 ≤ b.beam_current)
    (hpm : b.pixels_per_mm ≠ 0) (hsz : 1 ≤ b.size) :
    0 < sigma2_x_mm b ∧ 0 < sigma2_y_mm b ∧
      sigma2_x_px b ≠ 0 ∧ sigma2_y_px b ≠ 0 ∧ rawSum b ≠ 0 := by
  have hx : 0 < sigma2_x_mm b := sigma2_x_mm_pos b hbc
  have hy : 0 < sigma2_y_mm b := sigma2_y_mm_pos b hbc
  refine ⟨hx, hy, ?_, ?_, (rawSum_pos b (by omega)).ne'⟩
  · exact mul_ne_zero hx.ne' (pow_ne_zero 2 hpm)
  · exact mul_ne_zero hy.ne' (pow_ne_zero 2 hpm)

/-- Witness for C10 at the concrete beam `bW`. -/
theorem C10_sigma2_pos_witness :
    sigma2_x_px bW ≠ 0 ∧ sigma2_y_px bW ≠ 0 :=
  have h := C10_sigma2_pos bW (by norm_num [bW]) (by norm_num [bW]) (by decide)
  ⟨h.2.2.1, h.2.2.2.1⟩

/-- `min(abs(c), cap) * np.sign(c)` is the magnitude-clamp with sign
preserved, in its conditional form. -/
lemma clampSign_eq_ite (c cap : ℤ) : clampSign c cap = if cap < |c| then cap * Int.sign c else c := by
  unfold clampSign
  by_cases h : cap < |c|
  · rw [if_pos h, min_eq_right h.le]
  · rw [if_neg h, min_eq_left (not_lt.1 h), mul_comm, Int.sign_mul_abs]

/-- The clamp never exceeds the cap in magnitude. -/
lemma abs_clampSign_le (c cap : ℤ) (hcap : 0 ≤ cap) : |clampSign c cap| ≤ cap := by
  unfold clampSign
  have hmin : (0 : ℤ) ≤ min |c| cap := le_min (abs_nonneg c) hcap
  rcases Int.lt_trichotomy c 0 with h | h | h
  · rw [Int.sign_eq_neg_one_iff_neg.2 h, mul_neg_one, abs_neg, abs_of_nonneg hmin]
    exact min_le_right _ _
  · subst h
    simpa using hcap
  · rw [Int.sign_eq_one_iff_pos.2 h, mul_one, abs_of_nonneg hmin]
    exact min_le_right _ _

/-- The spec formulation of `centerX`: the real value
`(align_x - misalign_x) * defocus / focus * pixels_per_mm` truncated
toward zero to an integer, then magnitude-clamped to 96, sign preserved. -/
def centerX_spec (b : Beam) : ℤ :=
  if 96 < |truncToInt ((b.align_x - b.misalign_x) * defocus b / b.focus * b.pixels_per_mm)| then
    96 * Int.sign (truncToInt ((b.align_x - b.misalign_x) * defocus b / b.focus * b.pixels_per_mm))
  else truncToInt ((b.align_x - b.misalign_x) * defocus b / b.focus * b.pixels_per_mm)

/-- The spec formulation of `centerY`: as `centerX_spec` with the y
parameters and the cap 49. -/
def centerY_spec (b : Beam) : ℤ :=
  if 49 < |truncToInt ((b.align_y - b.misalign_y) * defocus b / b.focus * b.pixels_per_mm)| then
    49 * Int.sign (truncToInt ((b.align_y - b.misalign_y) * defocus b / b.focus * b.pixels_per_mm))
  else truncToInt ((b.align_y - b.misalign_y) * defocus b / b.focus * b.pixels_per_mm)

/-- Claim C3: for `focus ≠ 0`, `center_x` is the truncation toward zero
of `(align_x - misalign_x) * defocus / focus * pixels_per_mm`
magnitude-clamped to 96 with sign preserved (and analogously `center_y`
with cap 49), and in particular `|center_x| ≤ 96` and `|center_y| ≤ 49`
for arbitrary align, misalign and defocus values. -/
theorem C3_center_clamp (b : Beam) (hf : b.focus ≠ 0) :
    center_x b = centerX_spec b ∧ |center_x b| ≤ 96 ∧
      center_y b = centerY_spec b ∧ |center_y b| ≤ 49 := by
  refine ⟨?_, ?_, ?_, ?_⟩
  · rw [center_x, clampSign_eq_ite, centerX_spec]
  · exact abs_clampSign_le _ _ (by norm_num)
  · rw [center_y, clampSign_eq_ite, centerY_spec]
  · exact abs_clampSign_le _ _ (by norm_num)

/-- Witness for C3 at the concrete beam `bW` (`focus = 0.1 ≠ 0`). -/
theorem C3_center_clamp_witness : |center_x bW| ≤ 96 ∧ |center_y bW| ≤ 49 :=
  have h := C3_center_clamp bW (by norm_num [bW])
  ⟨h.2.1, h.2.2.2⟩

/-- Claim C8 counterexample: at `stigm_x = 1`, `astigm_x = 0`,
`stigm_y = 1`, `astigm_y = -1` (denominator exactly 0, numerator 1) the
angle computation raises `ZeroDivisionError` — it produces no value, in
particular neither `π/4` nor `-π/4`: the operands are builtin Python
scalars, not numpy float64 arrays, so no signed-infinity division
happens. -/
theorem C8_counterexample :
    astigAngleScalar 1 0 1 (-1) = none ∧
      astigAngleScalar 1 0 1 (-1) ≠ some (Real.pi / 4) ∧
      astigAngleScalar 1 0 1 (-1) ≠ some (-(Real.pi / 4)) := by
  have h : astigAngleScalar 1 0 1 (-1) = none := by
    unfold astigAngleScalar pyDiv
    rw [if_pos (by norm_num : (1 : ℝ) + -1 = 0)]
    rfl
  refine ⟨h, ?_, ?_⟩ <;> simp [h]

/-- Claim C8 (amended): when `stigm_y + astigm_y` is exactly 0 and
`stigm_x + astigm_x` is nonzero, the unguarded angle computation
`arctan((stigm_x+astigm_x)/(stigm_y+astigm_y))/2` raises
`ZeroDivisionError` (the operands are builtin Python scalars, whose
division by exact zero raises before `np.arctan` is called), so no
angle value is produced regardless of the numerator's sign. -/
theorem C8_amended_raises (sx ax sy ay : ℝ) (hden : sy + ay = 0) (hnum : sx + ax ≠ 0) :
    astigAngleScalar sx ax sy ay = none := by
  unfold astigAngleScalar pyDiv
  rw [if_pos hden]
  rfl

/-- Witness for C8 (amended) at `stigm_x = -2`, `astigm_x = 0`,
`stigm_y = 2`, `astigm_y = -2`. -/
theorem C8_amended_raises_witness : astigAngleScalar (-2) 0 2 (-2) = none :=
  C8_amended_raises (-2) 0 2 (-2) (by norm_num) (by norm_num)

/-- Claim C2 environment/state pair: a scanner at speed 1 (step 10),
resolution 256 × 192, beam off, concrete slider values, zero
convolution input. -/
def envA : Env where
  res0 := 256
  res1 := 192
  speed := 1
  beam_on := false
  h_v := 0
  hv_target := 15
  beam_current := 1
  contrast := 30
  brightness := 250
  convT := fun _ _ => 0

/-- The all-zero per-tick noise array. -/
def noise0 : ℕ → ℕ → ℝ := fun _ _ => 0

/-- The all-zero noise sequence, one array per tick. -/
def nseq0 : ℕ → ℕ → ℕ → ℝ := fun _ _ _ => 0

/-- The scanner state at the start of a scan: `line = 0`, empty frame. -/
def sA : ScanState where
  frame := fun _ _ => 0
  line := 0
  scan_active := true

/-- Claim C2: in the non-final-slice branch (`line < res1 - 1 - step`),
every written frame entry `frame[i, j]` with `line ≤ j < line + step`,
`i < res0`, equals
`beamOn · (h_v/hv_target) · (convolvedSlice · beamCurrent
 + 10·sqrt(beamCurrent)/sqrt(speed) · noise) · (contrast/30)² +
(brightness − 250)`, where `convolvedSlice` is the transposed
convolution entry at `(i + res0/8, j + res0/8)` and `noise` the per-pixel
uniform draw; and the slice width is `step = 11 − speed`, so speed 1
gives step 10 and speed 10 gives step 1. -/
theorem C2_slice_formula (env : Env) (noise : ℕ → ℕ → ℝ) (s : ScanState) (i j : ℕ)
    (hbr : (s.line : ℤ) < (env.res1 : ℤ) - 1 - (step env.speed : ℤ))
    (hj1 : s.line ≤ j) (hj2 : j < s.line + step env.speed) (hi : i < env.res0) :
    (scanning env noise s).frame i j =
      (if env.beam_on then (1 : ℝ) else 0) * (env.h_v / env.hv_target) *
        (env.convT (i + env.res0 / 8) (j + env.res0 / 8) * env.beam_current
          + 10 * Real.sqrt env.beam_current / Real.sqrt (env.speed : ℝ)
            * noise i (j - s.line)) *
        (env.contrast / 30) ^ 2 + (env.brightness - 250) ∧
      sliceEnd env.res1 (step env.speed) s.line = s.line + step env.speed ∧
      step 1 = 10 ∧ step 10 = 1 := by
  refine ⟨?_, ?_, rfl, rfl⟩
  · unfold scanning
    rw [if_pos hbr]
    show (if s.line ≤ j ∧ j < s.line + step env.speed ∧ i < env.res0 then
        newVal env noise s.line i j else s.frame i j) = _
    rw [if_pos ⟨hj1, hj2, hi⟩]
    unfold newVal
    ring
  · unfold sliceEnd
    rw [if_pos hbr]

/-- Witness for C2: state `sA` (line 0) in environment `envA`
(speed 1, step 10), written entry `(0, 3)`. -/
theorem C2_slice_formula_witness :
    (scanning envA noise0 sA).frame 0 3 =
      (if envA.beam_on then (1 : ℝ) else 0) * (envA.h_v / envA.hv_target) *
        (envA.convT (0 + envA.res0 / 8) (3 + envA.res0 / 8) * envA.beam_current
          + 10 * Real.sqrt envA.beam_current / Real.sqrt (envA.speed : ℝ)
            * noise0 0 (3 - sA.line)) *
        (envA.contrast / 30) ^ 2 + (envA.brightness - 250) ∧ step 1 = 10 :=
  have h := C2_slice_formula envA noise0 sA 0 3 (by decide) (by decide) (by decide) (by decide)
  ⟨h.1, h.2.2.1⟩

/-- Claim C4 counterexample: from `line = 0` with step 10 and frame
height 192, after exactly 20 ticks `line` is 200, not 0 — the wrap of
`currentLine` to 0 has not happened after `⌈192/10⌉ = 20` ticks. -/
theorem C4_counterexample :
    (ticks envA nseq0 20 sA).line = 200 ∧ (ticks envA nseq0 20 sA).line ≠ 0 := by
  rw [ticks_line]
  exact ⟨by decide, by decide⟩

/-- Claim C4 (amended): from `line = 0` with step 10 and frame height
192, ticks 1–19 each start at column `10·n` and write a full 10-column
slice (`sliceEnd = line + 10`); the 20th tick starts at 190 and writes
the 2-column remainder `[190, 192)`; it leaves `line = 200`, and the
wrap of `line` to 0 happens on the 21st tick, which writes nothing
(`sliceEnd = line`); the 22nd tick restarts from column 0 with a full
slice `[0, 10)` — no partial-line carryover. -/
theorem C4_amended_schedule :
    (∀ n ≤ 18, (ticks envA nseq0 n sA).line = 10 * n ∧
        sliceEnd envA.res1 (step envA.speed) ((ticks envA nseq0 n sA).line)
          = (ticks envA nseq0 n sA).line + 10) ∧
      (ticks envA nseq0 19 sA).line = 190 ∧
      sliceEnd envA.res1 (step envA.speed) 190 = 192 ∧
      (ticks envA nseq0 20 sA).line = 200 ∧
      sliceEnd envA.res1 (step envA.speed) 200 = 200 ∧
      (ticks envA nseq0 21 sA).line = 0 ∧
      sliceEnd envA.res1 (step envA.speed) 0 = 10 := by
  have hline : ∀ n, (ticks envA nseq0 n sA).line = (nextLine 192 10)^[n] 0 := by
    intro n
    rw [ticks_line]
    rfl
  refine ⟨fun n hn => ?_, ?_, by decide, ?_, by decide, ?_, by decide⟩
  · rw [hline]
    revert n
    decide
  · rw [hline]; decide
  · rw [hline]; decide
  · rw [hline]; decide

/-- Witness for C4 (amended) at tick 7. -/
theorem C4_amended_schedule_witness : (ticks envA nseq0 7 sA).line = 10 * 7 :=
  ((C4_amended_schedule).1 7 (by norm_num)).1

/-- Claim C5 counterexample: the state reached after 20 ticks from
`line = 0` (step 10, frame height 192) has `line = 200`, violating the
claimed invariant `currentLine < frameHeight`. -/
theorem C5_counterexample : ¬ (ticks envA nseq0 20 sA).line < envA.res1 := by
  rw [ticks_line]
  decide

/-- Claim C5 (amended): for every state reachable by repeated scanning
ticks from `currentLine = 0`, the invariant
`0 ≤ currentLine ≤ frameHeight - 2 + step` holds before and after every
tick (the code lets `currentLine` transiently exceed `frameHeight - 1`
by up to `step - 1` after the final slice of a line, until the next
tick resets it to 0). -/
theorem C5_amended_invariant (env : Env) (ns : ℕ → ℕ → ℕ → ℝ) (s : ScanState)
    (hst : 1 ≤ step env.speed) (hres : 2 ≤ env.res1) (hs : s.line = 0) (n : ℕ) :
    (ticks env ns n s).line ≤ env.res1 - 2 + step env.speed := by
  rw [ticks_line, hs]
  induction n with
  | zero => simp
  | succ n _ =>
      rw [Function.iterate_succ_apply']
      generalize (nextLine env.res1 (step env.speed))^[n] 0 = l
      unfold nextLine
      split_ifs with h1 h2 <;> omega

/-- Witness for C5 (amended): 20 ticks at step 10, height 192 stay below
`192 - 2 + 10 = 200` inclusive. -/
theorem C5_amended_invariant_witness :
    (ticks envA nseq0 20 sA).line ≤ envA.res1 - 2 + step envA.speed :=
  C5_amended_invariant envA nseq0 sA (by decide) (by decide) rfl 20

/-- An idle scanner whose previous scan stopped at column 5. -/
def sIdle : ScanState where
  frame := fun _ _ => 0
  line := 5
  scan_active := false

/-- Claim C6 counterexample: the start command (`start_stop` from the
idle state) switches to Scanning but leaves `currentLine` at its old
value 5 — it does not initialize `currentLine` to 0. -/
theorem C6_counterexample :
    (start_stop sIdle).scan_active = true ∧ (start_stop sIdle).line = 5 ∧
      (start_stop sIdle).line ≠ 0 := by
  refine ⟨rfl, rfl, by decide⟩

/-- Claim C6 (amended): the start command transitions Idle → Scanning
and leaves both `currentLine` and the frame unchanged (`currentLine` is
set to 0 only at construction and on a resolution change); the stop
command transitions Scanning → Idle, also leaving `currentLine` and the
frame contents unchanged (no reset). -/
theorem C6_amended_start_stop (s : ScanState) :
    (s.scan_active = false →
      (start_stop s).scan_active = true ∧ (start_stop s).line = s.line ∧
        (start_stop s).frame = s.frame) ∧
    (s.scan_active = true →
      (start_stop s).scan_active = false ∧ (start_stop s).line = s.line ∧
        (start_stop s).frame = s.frame) := by
  unfold start_stop
  constructor
  · intro h
    rw [h]
    exact ⟨rfl, rfl, rfl⟩
  · intro h
    rw [h]
    exact ⟨rfl, rfl, rfl⟩

/-- Witness for C6 (amended) at the concrete idle state `sIdle`. -/
theorem C6_amended_start_stop_witness :
    (start_stop sIdle).scan_active = true ∧ (start_stop sIdle).line = sIdle.line ∧
      (start_stop sIdle).frame = sIdle.frame :=
  (C6_amended_start_stop sIdle).1 rfl

/-- A scanner at speed 10 (step 1), resolution 256 × 192, beam off,
brightness slider 0, zero convolution input. -/
def envB : Env where
  res0 := 256
  res1 := 192
  speed := 10
  beam_on := false
  h_v := 1
  hv_target := 1
  beam_current := 1
  contrast := 30
  brightness := 0
  convT := fun _ _ => 0

/-- A scanning state on the final slice of a line: `line = 190` with an
all-zero frame. -/
def s190 : ScanState where
  frame := fun _ _ => 0
  line := 190
  scan_active := true

/-- Claim C7 counterexample: at `line = 190`, step 1 (speed 10), frame
height 192, the tick mutates column 191, which lies outside the claimed
range `[line, line + step) = [190, 191)`: the written value is `-250`
while the prior entry was `0`. -/
theorem C7_counterexample :
    ¬ (s190.line ≤ 191 ∧ 191 < s190.line + step envB.speed) ∧
      (scanning envB noise0 s190).frame 0 191 = -250 ∧ s190.frame 0 191 = 0 := by
  refine ⟨by decide, ?_, rfl⟩
  have h1 : ¬ ((s190.line : ℤ) < (envB.res1 : ℤ) - 1 - (step envB.speed : ℤ)) := by decide
  have h2 : (s190.line : ℤ) < (envB.res1 : ℤ) - 1 := by decide
  unfold scanning
  rw [if_neg h1, if_pos h2]
  show (if s190.line ≤ 191 ∧ 191 < envB.res1 ∧ 0 < envB.res0 then
      newVal envB noise0 s190.line 0 191 else s190.frame 0 191) = -250
  rw [if_pos (by decide)]
  show (if envB.beam_on then (1 : ℝ) else 0) * envB.h_v / envB.hv_target *
      (envB.convT (0 + envB.res0 / 8) (191 + envB.res0 / 8) * envB.beam_current
        + 10 * Real.sqrt envB.beam_current / Real.sqrt (envB.speed : ℝ)
          * noise0 0 (191 - s190.line)) *
      (envB.contrast / 30) ^ 2 + envB.brightness - 250 = -250
  show (if false then (1 : ℝ) else 0) * 1 / 1 *
      (0 * 1 + 10 * Real.sqrt 1 / Real.sqrt ((10 : ℕ) : ℝ) * 0) *
      ((30 : ℝ) / 30) ^ 2 + 0 - 250 = -250
  norm_num

/-- Claim C7 (amended): each scanning tick mutates only the columns
`[line, sliceEnd)`, where `sliceEnd = line + step` in the full-slice
branch, `sliceEnd = frameHeight` on the final slice of a line (which can
exceed `line + step` by one column, and is never more than
`line + step + 1`), and `sliceEnd = line` (no write) on the reset tick;
every entry outside those columns (or outside the `res0` rows) is
unchanged, and every written entry is exactly replaced by the newly
computed slice value, independent of its prior contents. -/
theorem C7_amended_frame_effect (env : Env) (noise : ℕ → ℕ → ℝ) (s : ScanState) :
    (∀ i j, ¬ (s.line ≤ j ∧ j < sliceEnd env.res1 (step env.speed) s.line ∧ i < env.res0) →
        (scanning env noise s).frame i j = s.frame i j) ∧
    (∀ i j, s.line ≤ j → j < sliceEnd env.res1 (step env.speed) s.line → i < env.res0 →
        (scanning env noise s).frame i j = newVal env noise s.line i j) ∧
    sliceEnd env.res1 (step env.speed) s.line ≤ s.line + step env.speed + 1 := by
  unfold scanning sliceEnd
  split_ifs with h1 h2
  · refine ⟨?_, ?_, by omega⟩
    · intro i j hn
      show (if s.line ≤ j ∧ j < s.line + step env.speed ∧ i < env.res0 then
          newVal env noise s.line i j else s.frame i j) = s.frame i j
      rw [if_neg hn]
    · intro i j hj1 hj2 hi
      show (if s.line ≤ j ∧ j < s.line + step env.speed ∧ i < env.res0 then
          newVal env noise s.line i j else s.frame i j) = newVal env noise s.line i j
      rw [if_pos ⟨hj1, hj2, hi⟩]
  · refine ⟨?_, ?_, by omega⟩
    · intro i j hn
      show (if s.line ≤ j ∧ j < env.res1 ∧ i < env.res0 then
          newVal env noise s.line i j else s.frame i j) = s.frame i j
      rw [if_neg hn]
    · intro i j hj1 hj2 hi
      show (if s.line ≤ j ∧ j < env.res1 ∧ i < env.res0 then
          newVal env noise s.line i j else s.frame i j) = newVal env noise s.line i j
      rw [if_pos ⟨hj1, hj2, hi⟩]
  · refine ⟨fun i j _ => rfl, ?_, by omega⟩
    intro i j hj1 hj2 hi
    exact absurd (lt_of_le_of_lt hj1 hj2) (lt_irrefl _)

/-- Witness for C7 (amended): column 0 is outside the slice written from
`line = 190` and is unchanged by the tick. -/
theorem C7_amended_frame_effect_witness :
    (scanning envB noise0 s190).frame 0 0 = s190.frame 0 0 :=
  (C7_amended_frame_effect envB noise0 s190).1 0 0 (by decide)

/-- Claim C9 counterexample: at the concrete beam `bW`, which has
`stigm_x = stigm_y = astigm_x = astigm_y = 0` and valid values for every
other parameter, the program computes no kernel at all — the rotation
angle performs the builtin-scalar division `0/0`, which raises
`ZeroDivisionError` before any grid entry exists, so there are no
entries `kernel[0,1]` and `kernel[1,0]` to be equal. -/
theorem C9_counterexample :
    beam_intensityPy bW 0 1 = none ∧ beam_intensityPy bW 1 0 = none := by
  have h : bW.stigm_y + bW.astigm_y = 0 := by norm_num [bW]
  unfold beam_intensityPy
  refine ⟨?_, ?_⟩ <;> rw [if_pos h]

/-- Claim C9 (amended): for every parameter state with
`stigm_x = stigm_y = astigm_x = astigm_y = 0`, whatever the remaining
parameters, `beam_intensity` produces no kernel entry at any index: the
rotation-angle computation divides `0/0` with builtin Python scalars and
raises `ZeroDivisionError`, so no symmetry (or any other) property of
kernel entries is exhibited on this domain. -/
theorem C9_amended_no_kernel (b : Beam) (h1 : b.stigm_x = 0) (h2 : b.stigm_y = 0)
    (h3 : b.astigm_x = 0) (h4 : b.astigm_y = 0) (i j : ℕ) :
    beam_intensityPy b i j = none := by
  unfold beam_intensityPy
  rw [h2, h4]
  rw [if_pos (by norm_num)]

/-- Witness for C9 (amended) at the concrete beam `bW`, index `(2, 3)`. -/
theorem C9_amended_no_kernel_witness : beam_intensityPy bW 2 3 = none :=
  C9_amended_no_kernel bW rfl rfl rfl rfl 2 3

end SEM
